import Mathlib

/-!
Verification of the `battalion-common` pricing library.

The repository's single piece of logic is the pure function
`calculatePricesWithMarkupDiscount` in `src/utils/pricing.ts`, which maps one
pricing-input record to one pricing-result record using decimal.js exact
decimal arithmetic.  We embed it shallowly over `ℚ`:

* decimal.js values are modelled as exact rationals;
* `toDecimalPlaces(0, ROUND_HALF_UP)` (round half away from zero to an
  integer) is `roundHalfUp`; `toDecimalPlaces(2, ROUND_HALF_UP)` is `roundTo2`;
* a JavaScript-falsy numeric field (zero / null / undefined / NaN) is
  modelled as the rational `0`; the optional `tier0Price` field is an
  `Option ℚ`, where `none` models "absent" and `some 0` is falsy too,
  matching the source's `tier0Price ? new Decimal(tier0Price) : tierPrice`.

Every intermediate of the source function (`tierPrice`, `nabxPrice`,
`meltValue`, `tier0PriceDecimal`, `tier0Premium`, `houseMarkup`,
`discountedHouseMarkup`, `discountedFinalPrice`, the uncapped
`totalDiscount` / `totalDiscountPercent`, and `cappedDiscountAmount`) is a
named definition so that theorems can refer to the branch conditions.
-/

namespace Battalion

/-- decimal.js `toDecimalPlaces(0, Decimal.ROUND_HALF_UP)`:
round to an integer, halves going away from zero. -/
def roundHalfUp (q : ℚ) : ℤ :=
  if 0 ≤ q then ⌊q + 1 / 2⌋ else -⌊-q + 1 / 2⌋

/-- decimal.js `toDecimalPlaces(2, Decimal.ROUND_HALF_UP)`:
round to two decimal places, halves going away from zero. -/
def roundTo2 (q : ℚ) : ℚ :=
  (roundHalfUp (q * 100) : ℚ) / 100

/-- `src/constants/pricing.ts`: fallback price, 100,000,000 cents. -/
def ONE_MILLION_IN_CENTS : ℚ := 100000000

/-- Input record of `calculatePricesWithMarkupDiscount`
(`CalculatePricesWithMarkupDiscountInput` in `src/types`). -/
structure CalculatePricesWithMarkupDiscountInput where
  promoMarkupDiscount : ℚ
  spotPrice : ℚ
  wholesaleMarkup : ℚ
  markupByTier : ℚ
  actualMetalWeight : ℚ
  tier0Price : Option ℚ
  maximumPremiumDiscount : ℚ
deriving DecidableEq

/-- Result record of `calculatePricesWithMarkupDiscount`
(`CalculatedPricesWithMarkupDiscount` in `src/types`). -/
structure CalculatedPricesWithMarkupDiscount where
  originalPrice : ℚ
  calculatedPrice : ℚ
  totalDiscount : ℚ
  totalDiscountPercent : ℚ
deriving DecidableEq

abbrev Input := CalculatePricesWithMarkupDiscountInput
abbrev Output := CalculatedPricesWithMarkupDiscount

/-- `const tierPrice = new Decimal(spotPrice).times(new Decimal(markupByTier))`. -/
def tierPrice (i : Input) : ℚ := i.spotPrice * i.markupByTier

/-- `tierPrice.toDecimalPlaces(0, Decimal.ROUND_HALF_UP).toNumber()`. -/
def formattedTierPrice (i : Input) : ℚ := (roundHalfUp (tierPrice i) : ℚ)

/-- `const nabxPrice = new Decimal(spotPrice).times(new Decimal(wholesaleMarkup))`. -/
def nabxPrice (i : Input) : ℚ := i.spotPrice * i.wholesaleMarkup

/-- `const meltValue = new Decimal(spotPrice).times(new Decimal(actualMetalWeight))`. -/
def meltValue (i : Input) : ℚ := i.spotPrice * i.actualMetalWeight

/-- `const tier0PriceDecimal = tier0Price ? new Decimal(tier0Price) : tierPrice`:
a falsy `tier0Price` (absent or zero) falls back to `tierPrice`. -/
def tier0PriceDecimal (i : Input) : ℚ :=
  match i.tier0Price with
  | some t => if t = 0 then tierPrice i else t
  | none => tierPrice i

/-- `const tier0Premium = tier0PriceDecimal.minus(meltValue)`. -/
def tier0Premium (i : Input) : ℚ := tier0PriceDecimal i - meltValue i

/-- `let houseMarkup = tierPrice.minus(nabxPrice);`
`houseMarkup = houseMarkup.lessThan(0) ? new Decimal(0) : houseMarkup`. -/
def houseMarkup (i : Input) : ℚ :=
  if tierPrice i - nabxPrice i < 0 then 0 else tierPrice i - nabxPrice i

/-- `const markupDiscountRate = new Decimal(promoMarkupDiscount).dividedBy(100)`. -/
def markupDiscountRate (i : Input) : ℚ := i.promoMarkupDiscount / 100

/-- `const discountedHouseMarkup = houseMarkup.times(new Decimal(1).minus(markupDiscountRate))`. -/
def discountedHouseMarkup (i : Input) : ℚ :=
  houseMarkup i * (1 - markupDiscountRate i)

/-- `let discountedFinalPrice = nabxPrice.plus(discountedHouseMarkup)`
(the uncapped candidate final price). -/
def discountedFinalPrice (i : Input) : ℚ := nabxPrice i + discountedHouseMarkup i

/-- `let totalDiscount = tier0PriceDecimal.minus(discountedFinalPrice)`
(the uncapped discount amount). -/
def totalDiscountUncapped (i : Input) : ℚ :=
  tier0PriceDecimal i - discountedFinalPrice i

/-- `let totalDiscountPercent = tier0Premium.isZero() ? 0 :`
`totalDiscount.dividedBy(tier0Premium).times(100)` (the uncapped percentage). -/
def totalDiscountPercentUncapped (i : Input) : ℚ :=
  if tier0Premium i = 0 then 0
  else totalDiscountUncapped i / tier0Premium i * 100

/-- `const cappedDiscountAmount = tier0Premium.times(maximumPremiumDiscount).dividedBy(100)`. -/
def cappedDiscountAmount (i : Input) : ℚ :=
  tier0Premium i * i.maximumPremiumDiscount / 100

/-- `calculatePricesWithMarkupDiscount` from `src/utils/pricing.ts`:
guard on falsy `spotPrice`/`markupByTier` (sentinel fallback), then on falsy
`promoMarkupDiscount`/`wholesaleMarkup`/`actualMetalWeight` (undiscounted
tier price), then the discount path with the maximum-premium-discount cap,
rounding the money outputs to integer cents and the percentage to 2 places. -/
def calculatePricesWithMarkupDiscount (input : Input) : Output :=
  if input.spotPrice = 0 ∨ input.markupByTier = 0 then
    ⟨ONE_MILLION_IN_CENTS, ONE_MILLION_IN_CENTS, 0, 0⟩
  else if input.promoMarkupDiscount = 0 ∨ input.wholesaleMarkup = 0 ∨
      input.actualMetalWeight = 0 then
    ⟨formattedTierPrice input, formattedTierPrice input, 0, 0⟩
  else if totalDiscountPercentUncapped input > input.maximumPremiumDiscount then
    ⟨formattedTierPrice input,
     (roundHalfUp (tier0PriceDecimal input - cappedDiscountAmount input) : ℚ),
     (roundHalfUp (cappedDiscountAmount input) : ℚ),
     roundTo2 input.maximumPremiumDiscount⟩
  else
    ⟨formattedTierPrice input,
     (roundHalfUp (discountedFinalPrice input) : ℚ),
     (roundHalfUp (totalDiscountUncapped input) : ℚ),
     roundTo2 (totalDiscountPercentUncapped input)⟩

/-- An input identical to `i` except for its `promoMarkupDiscount` field. -/
def withPromo (i : Input) (p : ℚ) : Input :=
  ⟨p, i.spotPrice, i.wholesaleMarkup, i.markupByTier, i.actualMetalWeight,
   i.tier0Price, i.maximumPremiumDiscount⟩

/-! ### Properties of the rounding modes -/

theorem roundHalfUp_intCast (k : ℤ) : roundHalfUp (k : ℚ) = k := by
  unfold roundHalfUp
  by_cases h : 0 ≤ (k : ℚ)
  · rw [if_pos h, Int.floor_int_add]
    norm_num
  · rw [if_neg h]
    have : -(k : ℚ) = ((-k : ℤ) : ℚ) := by push_cast; ring
    rw [this, Int.floor_int_add]
    norm_num

theorem roundHalfUp_le_intCast {q : ℚ} {k : ℤ} (h : q ≤ (k : ℚ)) :
    roundHalfUp q ≤ k := by
  unfold roundHalfUp
  by_cases hq : 0 ≤ q
  · rw [if_pos hq]
    have : ⌊q + 1 / 2⌋ < k + 1 := by
      rw [Int.floor_lt]
      push_cast
      linarith
    omega
  · rw [if_neg hq]
    have : (-k : ℤ) ≤ ⌊-q + 1 / 2⌋ := by
      rw [Int.le_floor]
      push_cast
      linarith
    omega

theorem roundHalfUp_mono {q r : ℚ} (h : q ≤ r) :
    roundHalfUp q ≤ roundHalfUp r := by
  unfold roundHalfUp
  by_cases hq : 0 ≤ q
  · rw [if_pos hq, if_pos (le_trans hq h)]
    exact Int.floor_le_floor (by linarith)
  · rw [if_neg hq]
    by_cases hr : 0 ≤ r
    · rw [if_pos hr]
      have h1 : (0 : ℤ) ≤ ⌊-q + 1 / 2⌋ := by
        rw [Int.floor_nonneg]; push_neg at hq; linarith
      have h2 : (0 : ℤ) ≤ ⌊r + 1 / 2⌋ := by
        rw [Int.floor_nonneg]; linarith
      omega
    · rw [if_neg hr]
      have : ⌊-r + 1 / 2⌋ ≤ ⌊-q + 1 / 2⌋ := Int.floor_le_floor (by linarith)
      omega

theorem roundTo2_eq_self {q : ℚ} (h : ∃ k : ℤ, q * 100 = (k : ℚ)) :
    roundTo2 q = q := by
  obtain ⟨k, hk⟩ := h
  unfold roundTo2
  rw [hk, roundHalfUp_intCast, ← hk]
  ring

theorem roundTo2_le {q m : ℚ} (hq : q ≤ m) (hm : ∃ k : ℤ, m * 100 = (k : ℚ)) :
    roundTo2 q ≤ m := by
  obtain ⟨k, hk⟩ := hm
  unfold roundTo2
  have h1 : q * 100 ≤ (k : ℚ) := by rw [← hk]; linarith
  have h2 : (roundHalfUp (q * 100) : ℚ) ≤ (k : ℚ) :=
    Int.cast_le.mpr (roundHalfUp_le_intCast h1)
  rw [← hk] at h2
  linarith

/-! ### Branch lemmas for `calculatePricesWithMarkupDiscount` -/

theorem calculate_fallback (i : Input) (h : i.spotPrice = 0 ∨ i.markupByTier = 0) :
    calculatePricesWithMarkupDiscount i =
      ⟨ONE_MILLION_IN_CENTS, ONE_MILLION_IN_CENTS, 0, 0⟩ := by
  unfold calculatePricesWithMarkupDiscount
  rw [if_pos h]

theorem calculate_no_discount (i : Input)
    (h1 : ¬(i.spotPrice = 0 ∨ i.markupByTier = 0))
    (h2 : i.promoMarkupDiscount = 0 ∨ i.wholesaleMarkup = 0 ∨ i.actualMetalWeight = 0) :
    calculatePricesWithMarkupDiscount i =
      ⟨formattedTierPrice i, formattedTierPrice i, 0, 0⟩ := by
  unfold calculatePricesWithMarkupDiscount
  rw [if_neg h1, if_pos h2]

theorem calculate_capped (i : Input)
    (h1 : ¬(i.spotPrice = 0 ∨ i.markupByTier = 0))
    (h2 : ¬(i.promoMarkupDiscount = 0 ∨ i.wholesaleMarkup = 0 ∨ i.actualMetalWeight = 0))
    (h3 : totalDiscountPercentUncapped i > i.maximumPremiumDiscount) :
    calculatePricesWithMarkupDiscount i =
      ⟨formattedTierPrice i,
       (roundHalfUp (tier0PriceDecimal i - cappedDiscountAmount i) : ℚ),
       (roundHalfUp (cappedDiscountAmount i) : ℚ),
       roundTo2 i.maximumPremiumDiscount⟩ := by
  unfold calculatePricesWithMarkupDiscount
  rw [if_neg h1, if_neg h2, if_pos h3]

theorem calculate_uncapped (i : Input)
    (h1 : ¬(i.spotPrice = 0 ∨ i.markupByTier = 0))
    (h2 : ¬(i.promoMarkupDiscount = 0 ∨ i.wholesaleMarkup = 0 ∨ i.actualMetalWeight = 0))
    (h3 : ¬ totalDiscountPercentUncapped i > i.maximumPremiumDiscount) :
    calculatePricesWithMarkupDiscount i =
      ⟨formattedTierPrice i,
       (roundHalfUp (discountedFinalPrice i) : ℚ),
       (roundHalfUp (totalDiscountUncapped i) : ℚ),
       roundTo2 (totalDiscountPercentUncapped i)⟩ := by
  unfold calculatePricesWithMarkupDiscount
  rw [if_neg h1, if_neg h2, if_neg h3]

theorem houseMarkup_nonneg (i : Input) : 0 ≤ houseMarkup i := by
  unfold houseMarkup
  split <;> linarith

theorem nabxPrice_le_discountedFinalPrice (i : Input)
    (hp : i.promoMarkupDiscount ≤ 100) :
    nabxPrice i ≤ discountedFinalPrice i := by
  unfold discountedFinalPrice discountedHouseMarkup markupDiscountRate
  have h1 : 0 ≤ houseMarkup i := houseMarkup_nonneg i
  have h2 : 0 ≤ 1 - i.promoMarkupDiscount / 100 := by linarith
  nlinarith

/-- Projection of `calculatePricesWithMarkupDiscount` used by several results:
whenever `spotPrice` and `markupByTier` are truthy, the returned
`originalPrice` is `spotPrice × markupByTier` rounded half-up, on every
branch of the function. -/
theorem originalPrice_eq (i : Input) (hs : i.spotPrice ≠ 0) (hm : i.markupByTier ≠ 0) :
    (calculatePricesWithMarkupDiscount i).originalPrice =
      (roundHalfUp (i.spotPrice * i.markupByTier) : ℚ) := by
  have h1 : ¬(i.spotPrice = 0 ∨ i.markupByTier = 0) := by tauto
  by_cases h2 : i.promoMarkupDiscount = 0 ∨ i.wholesaleMarkup = 0 ∨ i.actualMetalWeight = 0
  · rw [calculate_no_discount i h1 h2]; rfl
  · by_cases h3 : totalDiscountPercentUncapped i > i.maximumPremiumDiscount
    · rw [calculate_capped i h1 h2 h3]; rfl
    · rw [calculate_uncapped i h1 h2 h3]; rfl

/-! ### Claims -/

/-- C2: for every input in which `spotPrice` is falsy or `markupByTier` is
falsy, the function returns exactly
`{originalPrice: ONE_MILLION_IN_CENTS, calculatedPrice: ONE_MILLION_IN_CENTS,
totalDiscount: 0, totalDiscountPercent: 0}` with
`ONE_MILLION_IN_CENTS = 100000000`. -/
theorem fallback_on_falsy_spot_or_markup (i : Input)
    (h : i.spotPrice = 0 ∨ i.markupByTier = 0) :
    calculatePricesWithMarkupDiscount i =
      ⟨ONE_MILLION_IN_CENTS, ONE_MILLION_IN_CENTS, 0, 0⟩ ∧
    ONE_MILLION_IN_CENTS = 100000000 :=
  ⟨calculate_fallback i h, rfl⟩

theorem fallback_on_falsy_spot_or_markup_witness :
    calculatePricesWithMarkupDiscount ⟨20, 0, 19/20, 11/10, 1, none, 70⟩ =
      ⟨ONE_MILLION_IN_CENTS, ONE_MILLION_IN_CENTS, 0, 0⟩ ∧
    ONE_MILLION_IN_CENTS = 100000000 :=
  fallback_on_falsy_spot_or_markup ⟨20, 0, 19/20, 11/10, 1, none, 70⟩ (Or.inl rfl)

/-- C3: for every input with truthy `spotPrice` and `markupByTier` in which
`promoMarkupDiscount`, `wholesaleMarkup`, or `actualMetalWeight` is falsy,
the result is `originalPrice = calculatedPrice = roundHalfUp(spotPrice ×
markupByTier)` with `totalDiscount = 0` and `totalDiscountPercent = 0`. -/
theorem no_discount_returns_tier_price (i : Input)
    (hs : i.spotPrice ≠ 0) (hm : i.markupByTier ≠ 0)
    (h : i.promoMarkupDiscount = 0 ∨ i.wholesaleMarkup = 0 ∨ i.actualMetalWeight = 0) :
    calculatePricesWithMarkupDiscount i =
      ⟨(roundHalfUp (i.spotPrice * i.markupByTier) : ℚ),
       (roundHalfUp (i.spotPrice * i.markupByTier) : ℚ), 0, 0⟩ := by
  have h1 : ¬(i.spotPrice = 0 ∨ i.markupByTier = 0) := by tauto
  rw [calculate_no_discount i h1 h]; rfl

theorem no_discount_returns_tier_price_witness :
    calculatePricesWithMarkupDiscount ⟨0, 2000, 19/20, 11/10, 1, none, 50⟩ =
      ⟨2200, 2200, 0, 0⟩ := by
  have h := no_discount_returns_tier_price ⟨0, 2000, 19/20, 11/10, 1, none, 50⟩
    (by norm_num) (by norm_num) (Or.inl rfl)
  rw [h]
  norm_num [roundHalfUp]

/-- C4: on the input `{spotPrice: 2000, markupByTier: 1.1 (= 11/10),
promoMarkupDiscount: 20, wholesaleMarkup: 0.95 (= 19/20),
actualMetalWeight: 1, maximumPremiumDiscount: 50}` with `tier0Price` absent,
the function returns `originalPrice = 2200` and `calculatedPrice = 2140`. -/
theorem example_returns_2200_and_2140 :
    (calculatePricesWithMarkupDiscount ⟨20, 2000, 19/20, 11/10, 1, none, 50⟩).originalPrice
        = 2200 ∧
    (calculatePricesWithMarkupDiscount ⟨20, 2000, 19/20, 11/10, 1, none, 50⟩).calculatedPrice
        = 2140 := by
  constructor <;>
  norm_num [calculatePricesWithMarkupDiscount, formattedTierPrice, tierPrice, nabxPrice,
    meltValue, tier0PriceDecimal, tier0Premium, houseMarkup, markupDiscountRate,
    discountedHouseMarkup, discountedFinalPrice, totalDiscountUncapped,
    totalDiscountPercentUncapped, cappedDiscountAmount, roundHalfUp, roundTo2,
    ONE_MILLION_IN_CENTS]

/-- C7: for any two inputs sharing the same truthy `spotPrice` and the same
truthy `markupByTier`, whatever their other fields, the returned
`originalPrice` is identical and equals `spotPrice × markupByTier` rounded
half-up to integer cents. -/
theorem originalPrice_depends_only_on_spot_and_tier (i₁ i₂ : Input)
    (hs : i₁.spotPrice = i₂.spotPrice) (hm : i₁.markupByTier = i₂.markupByTier)
    (hs0 : i₁.spotPrice ≠ 0) (hm0 : i₁.markupByTier ≠ 0) :
    (calculatePricesWithMarkupDiscount i₁).originalPrice =
      (calculatePricesWithMarkupDiscount i₂).originalPrice ∧
    (calculatePricesWithMarkupDiscount i₁).originalPrice =
      (roundHalfUp (i₁.spotPrice * i₁.markupByTier) : ℚ) := by
  have e₁ := originalPrice_eq i₁ hs0 hm0
  have e₂ := originalPrice_eq i₂ (hs ▸ hs0) (hm ▸ hm0)
  refine ⟨?_, e₁⟩
  rw [e₁, e₂, hs, hm]

theorem originalPrice_depends_only_on_spot_and_tier_witness :
    (calculatePricesWithMarkupDiscount ⟨20, 2000, 19/20, 11/10, 1, none, 50⟩).originalPrice =
      (calculatePricesWithMarkupDiscount ⟨0, 2000, 1/2, 11/10, 3, some 2500, 10⟩).originalPrice ∧
    (calculatePricesWithMarkupDiscount ⟨20, 2000, 19/20, 11/10, 1, none, 50⟩).originalPrice =
      (roundHalfUp ((⟨20, 2000, 19/20, 11/10, 1, none, 50⟩ : Input).spotPrice *
        (⟨20, 2000, 19/20, 11/10, 1, none, 50⟩ : Input).markupByTier) : ℚ) :=
  originalPrice_depends_only_on_spot_and_tier
    ⟨20, 2000, 19/20, 11/10, 1, none, 50⟩ ⟨0, 2000, 1/2, 11/10, 3, some 2500, 10⟩
    rfl rfl (by norm_num) (by norm_num)

/-- C8: `calculatePricesWithMarkupDiscount` is total and deterministic —
every input record yields a defined result record, and identical inputs
yield identical outputs. -/
theorem calculate_total_and_deterministic :
    ∀ i : Input, ∃ r : Output, calculatePricesWithMarkupDiscount i = r ∧
      ∀ j : Input, j = i → calculatePricesWithMarkupDiscount j = r :=
  fun i => ⟨calculatePricesWithMarkupDiscount i, rfl, fun _ h => by rw [h]⟩

theorem calculate_total_and_deterministic_witness :
    ∃ r : Output, calculatePricesWithMarkupDiscount ⟨0, 0, 0, 0, 0, none, 0⟩ = r ∧
      ∀ j : Input, j = ⟨0, 0, 0, 0, 0, none, 0⟩ →
        calculatePricesWithMarkupDiscount j = r :=
  calculate_total_and_deterministic ⟨0, 0, 0, 0, 0, none, 0⟩

/-- C10: there is a discount-path input whose supplied `tier0Price` lies
strictly below the discounted final price, for which the function returns a
strictly negative `totalDiscount` and a `calculatedPrice` strictly above
`tier0Price`. -/
theorem totalDiscount_negative_exists :
    ∃ i : Input, ∃ t : ℚ, i.tier0Price = some t ∧
      i.spotPrice ≠ 0 ∧ i.markupByTier ≠ 0 ∧ i.promoMarkupDiscount ≠ 0 ∧
      i.wholesaleMarkup ≠ 0 ∧ i.actualMetalWeight ≠ 0 ∧
      t < discountedFinalPrice i ∧
      (calculatePricesWithMarkupDiscount i).totalDiscount < 0 ∧
      t < (calculatePricesWithMarkupDiscount i).calculatedPrice := by
  refine ⟨⟨20, 2000, 19/20, 11/10, 1, some 2000, 50⟩, 2000, rfl,
    ?_, ?_, ?_, ?_, ?_, ?_, ?_, ?_⟩ <;>
  norm_num [calculatePricesWithMarkupDiscount, formattedTierPrice, tierPrice, nabxPrice,
    meltValue, tier0PriceDecimal, tier0Premium, houseMarkup, markupDiscountRate,
    discountedHouseMarkup, discountedFinalPrice, totalDiscountUncapped,
    totalDiscountPercentUncapped, cappedDiscountAmount, roundHalfUp, roundTo2,
    ONE_MILLION_IN_CENTS]

/-- C1 counterexample: with `maximumPremiumDiscount = 0.005` (a value not
representable in 2 decimal places) on a capped discount-path input, the
returned `totalDiscountPercent` is `0.01`, which both exceeds and differs
from `maximumPremiumDiscount`, refuting the claim as stated. -/
theorem cap_exact_fails_for_noncent_cap :
    totalDiscountPercentUncapped ⟨100, 2000, 19/20, 2, 1, none, 1/200⟩ >
      (⟨100, 2000, 19/20, 2, 1, none, 1/200⟩ : Input).maximumPremiumDiscount ∧
    (calculatePricesWithMarkupDiscount
        ⟨100, 2000, 19/20, 2, 1, none, 1/200⟩).totalDiscountPercent >
      (⟨100, 2000, 19/20, 2, 1, none, 1/200⟩ : Input).maximumPremiumDiscount ∧
    (calculatePricesWithMarkupDiscount
        ⟨100, 2000, 19/20, 2, 1, none, 1/200⟩).totalDiscountPercent ≠
      (⟨100, 2000, 19/20, 2, 1, none, 1/200⟩ : Input).maximumPremiumDiscount := by
  refine ⟨?_, ?_, ?_⟩ <;>
  norm_num [calculatePricesWithMarkupDiscount, formattedTierPrice, tierPrice, nabxPrice,
    meltValue, tier0PriceDecimal, tier0Premium, houseMarkup, markupDiscountRate,
    discountedHouseMarkup, discountedFinalPrice, totalDiscountUncapped,
    totalDiscountPercentUncapped, cappedDiscountAmount, roundHalfUp, roundTo2,
    ONE_MILLION_IN_CENTS]

/-- C1 (amended): for every discount-path input whose
`maximumPremiumDiscount` is representable in at most 2 decimal places
(`100 × maximumPremiumDiscount` is an integer), the returned
`totalDiscountPercent` never exceeds `maximumPremiumDiscount`, and whenever
the uncapped computed percentage exceeds `maximumPremiumDiscount` the
returned `totalDiscountPercent` equals exactly `maximumPremiumDiscount`. -/
theorem cap_bounds_totalDiscountPercent (i : Input)
    (hs : i.spotPrice ≠ 0) (hm : i.markupByTier ≠ 0)
    (hp : i.promoMarkupDiscount ≠ 0) (hw : i.wholesaleMarkup ≠ 0)
    (ha : i.actualMetalWeight ≠ 0)
    (hcap : ∃ k : ℤ, i.maximumPremiumDiscount * 100 = (k : ℚ)) :
    (calculatePricesWithMarkupDiscount i).totalDiscountPercent ≤
      i.maximumPremiumDiscount ∧
    (totalDiscountPercentUncapped i > i.maximumPremiumDiscount →
      (calculatePricesWithMarkupDiscount i).totalDiscountPercent =
        i.maximumPremiumDiscount) := by
  have h1 : ¬(i.spotPrice = 0 ∨ i.markupByTier = 0) := by tauto
  have h2 : ¬(i.promoMarkupDiscount = 0 ∨ i.wholesaleMarkup = 0 ∨
      i.actualMetalWeight = 0) := by tauto
  by_cases h3 : totalDiscountPercentUncapped i > i.maximumPremiumDiscount
  · rw [calculate_capped i h1 h2 h3]
    have he : roundTo2 i.maximumPremiumDiscount = i.maximumPremiumDiscount :=
      roundTo2_eq_self hcap
    exact ⟨le_of_eq he, fun _ => he⟩
  · rw [calculate_uncapped i h1 h2 h3]
    exact ⟨roundTo2_le (not_lt.mp h3) hcap, fun hc => absurd hc h3⟩

theorem cap_bounds_totalDiscountPercent_witness :
    (calculatePricesWithMarkupDiscount
        ⟨100, 2000, 19/20, 2, 1, none, 30⟩).totalDiscountPercent ≤ 30 ∧
    (totalDiscountPercentUncapped ⟨100, 2000, 19/20, 2, 1, none, 30⟩ > 30 →
      (calculatePricesWithMarkupDiscount
          ⟨100, 2000, 19/20, 2, 1, none, 30⟩).totalDiscountPercent = 30) :=
  cap_bounds_totalDiscountPercent ⟨100, 2000, 19/20, 2, 1, none, 30⟩
    (by norm_num) (by norm_num) (by norm_num) (by norm_num) (by norm_num)
    ⟨3000, by norm_num⟩

/-- C5 counterexample: a discount-path input with the tier price (1800)
below the wholesale price (1900) but whose cap branch fires
(uncapped percentage 150 > cap 50): the returned `calculatedPrice` is 2100,
not the rounded wholesale price 1900, refuting the claim as stated. -/
theorem below_wholesale_clamp_fails_when_capped :
    tierPrice ⟨20, 2000, 19/20, 9/10, 1, some 2200, 50⟩ <
      nabxPrice ⟨20, 2000, 19/20, 9/10, 1, some 2200, 50⟩ ∧
    (calculatePricesWithMarkupDiscount
        ⟨20, 2000, 19/20, 9/10, 1, some 2200, 50⟩).calculatedPrice ≠
      (roundHalfUp (nabxPrice ⟨20, 2000, 19/20, 9/10, 1, some 2200, 50⟩) : ℚ) := by
  constructor <;>
  norm_num [calculatePricesWithMarkupDiscount, formattedTierPrice, tierPrice, nabxPrice,
    meltValue, tier0PriceDecimal, tier0Premium, houseMarkup, markupDiscountRate,
    discountedHouseMarkup, discountedFinalPrice, totalDiscountUncapped,
    totalDiscountPercentUncapped, cappedDiscountAmount, roundHalfUp, roundTo2,
    ONE_MILLION_IN_CENTS]

/-- C5 (amended): on every discount-path input with
`spotPrice × markupByTier < spotPrice × wholesaleMarkup` in which the
maximum-premium-discount cap does not fire, the house markup is clamped to
zero and `calculatedPrice` equals the wholesale price
`spotPrice × wholesaleMarkup` rounded half-up, regardless of
`promoMarkupDiscount`. -/
theorem below_wholesale_returns_wholesale_uncapped (i : Input)
    (hs : i.spotPrice ≠ 0) (hm : i.markupByTier ≠ 0) (hp : i.promoMarkupDiscount ≠ 0)
    (hw : i.wholesaleMarkup ≠ 0) (ha : i.actualMetalWeight ≠ 0)
    (hbw : tierPrice i < nabxPrice i)
    (hnc : ¬ totalDiscountPercentUncapped i > i.maximumPremiumDiscount) :
    (calculatePricesWithMarkupDiscount i).calculatedPrice =
      (roundHalfUp (i.spotPrice * i.wholesaleMarkup) : ℚ) := by
  have h1 : ¬(i.spotPrice = 0 ∨ i.markupByTier = 0) := by tauto
  have h2 : ¬(i.promoMarkupDiscount = 0 ∨ i.wholesaleMarkup = 0 ∨
      i.actualMetalWeight = 0) := by tauto
  rw [calculate_uncapped i h1 h2 hnc]
  show (roundHalfUp (discountedFinalPrice i) : ℚ) = _
  have hhm : houseMarkup i = 0 := by
    unfold houseMarkup
    rw [if_pos (by linarith)]
  have hd : discountedFinalPrice i = i.spotPrice * i.wholesaleMarkup := by
    unfold discountedFinalPrice discountedHouseMarkup nabxPrice
    rw [hhm]
    ring
  rw [hd]

theorem below_wholesale_returns_wholesale_uncapped_witness :
    (calculatePricesWithMarkupDiscount
        ⟨20, 2000, 19/20, 9/10, 1, none, 50⟩).calculatedPrice =
      (roundHalfUp ((⟨20, 2000, 19/20, 9/10, 1, none, 50⟩ : Input).spotPrice *
        (⟨20, 2000, 19/20, 9/10, 1, none, 50⟩ : Input).wholesaleMarkup) : ℚ) :=
  below_wholesale_returns_wholesale_uncapped ⟨20, 2000, 19/20, 9/10, 1, none, 50⟩
    (by norm_num) (by norm_num) (by norm_num) (by norm_num) (by norm_num)
    (by norm_num [tierPrice, nabxPrice])
    (by norm_num [totalDiscountPercentUncapped, totalDiscountUncapped, tier0Premium,
      tier0PriceDecimal, tierPrice, nabxPrice, meltValue, discountedFinalPrice,
      discountedHouseMarkup, houseMarkup, markupDiscountRate])

/-- C6 counterexample: two discount-path inputs identical except for
`promoMarkupDiscount` (20 versus 20.1), both with computed percentage below
the cap of 100, whose returned `calculatedPrice` (2140 both) and
`totalDiscount` (60 both) coincide after rounding to integer cents, so the
claimed strict monotonicity fails. -/
theorem promo_strict_monotonicity_fails :
    (20 : ℚ) < 201/10 ∧
    totalDiscountPercentUncapped ⟨20, 2000, 19/20, 11/10, 1, none, 100⟩ < 100 ∧
    totalDiscountPercentUncapped ⟨201/10, 2000, 19/20, 11/10, 1, none, 100⟩ < 100 ∧
    ¬((calculatePricesWithMarkupDiscount
          ⟨201/10, 2000, 19/20, 11/10, 1, none, 100⟩).calculatedPrice <
        (calculatePricesWithMarkupDiscount
          ⟨20, 2000, 19/20, 11/10, 1, none, 100⟩).calculatedPrice ∧
      (calculatePricesWithMarkupDiscount
          ⟨20, 2000, 19/20, 11/10, 1, none, 100⟩).totalDiscount <
        (calculatePricesWithMarkupDiscount
          ⟨201/10, 2000, 19/20, 11/10, 1, none, 100⟩).totalDiscount) := by
  refine ⟨by norm_num, ?_, ?_, ?_⟩ <;>
  norm_num [calculatePricesWithMarkupDiscount, formattedTierPrice, tierPrice, nabxPrice,
    meltValue, tier0PriceDecimal, tier0Premium, houseMarkup, markupDiscountRate,
    discountedHouseMarkup, discountedFinalPrice, totalDiscountUncapped,
    totalDiscountPercentUncapped, cappedDiscountAmount, roundHalfUp, roundTo2,
    ONE_MILLION_IN_CENTS]

/-- C6 (amended): for every pair of discount-path inputs identical except
for `promoMarkupDiscount`, both staying below the cap, the input with the
strictly larger `promoMarkupDiscount` yields a `calculatedPrice` no larger
and a `totalDiscount` no smaller — monotone, but only weakly, because the
outputs are rounded to integer cents. -/
theorem promo_discount_weakly_monotone (i : Input) (p₁ p₂ : ℚ)
    (hs : i.spotPrice ≠ 0) (hm : i.markupByTier ≠ 0) (hw : i.wholesaleMarkup ≠ 0)
    (ha : i.actualMetalWeight ≠ 0) (hp₁ : p₁ ≠ 0) (hp₂ : p₂ ≠ 0) (hlt : p₁ < p₂)
    (hnc₁ : ¬ totalDiscountPercentUncapped (withPromo i p₁) > i.maximumPremiumDiscount)
    (hnc₂ : ¬ totalDiscountPercentUncapped (withPromo i p₂) > i.maximumPremiumDiscount) :
    (calculatePricesWithMarkupDiscount (withPromo i p₂)).calculatedPrice ≤
      (calculatePricesWithMarkupDiscount (withPromo i p₁)).calculatedPrice ∧
    (calculatePricesWithMarkupDiscount (withPromo i p₁)).totalDiscount ≤
      (calculatePricesWithMarkupDiscount (withPromo i p₂)).totalDiscount := by
  have h1 : ¬(i.spotPrice = 0 ∨ i.markupByTier = 0) := by tauto
  have h2₁ : ¬(p₁ = 0 ∨ i.wholesaleMarkup = 0 ∨ i.actualMetalWeight = 0) := by tauto
  have h2₂ : ¬(p₂ = 0 ∨ i.wholesaleMarkup = 0 ∨ i.actualMetalWeight = 0) := by tauto
  rw [calculate_uncapped (withPromo i p₁) h1 h2₁ hnc₁,
      calculate_uncapped (withPromo i p₂) h1 h2₂ hnc₂]
  have hnn : (0 : ℚ) ≤ houseMarkup i := houseMarkup_nonneg i
  have hdfp : discountedFinalPrice (withPromo i p₂) ≤
      discountedFinalPrice (withPromo i p₁) := by
    show nabxPrice i + houseMarkup i * (1 - p₂ / 100) ≤
      nabxPrice i + houseMarkup i * (1 - p₁ / 100)
    have := mul_le_mul_of_nonneg_left
      (by linarith : (1 : ℚ) - p₂ / 100 ≤ 1 - p₁ / 100) hnn
    linarith
  constructor
  · show (roundHalfUp (discountedFinalPrice (withPromo i p₂)) : ℚ) ≤
      (roundHalfUp (discountedFinalPrice (withPromo i p₁)) : ℚ)
    exact_mod_cast roundHalfUp_mono hdfp
  · show (roundHalfUp (totalDiscountUncapped (withPromo i p₁)) : ℚ) ≤
      (roundHalfUp (totalDiscountUncapped (withPromo i p₂)) : ℚ)
    have ht : tier0PriceDecimal (withPromo i p₂) = tier0PriceDecimal (withPromo i p₁) :=
      rfl
    have htdu : totalDiscountUncapped (withPromo i p₁) ≤
        totalDiscountUncapped (withPromo i p₂) := by
      unfold totalDiscountUncapped
      rw [ht]
      linarith
    exact_mod_cast roundHalfUp_mono htdu

theorem promo_discount_weakly_monotone_witness :
    (calculatePricesWithMarkupDiscount
        (withPromo ⟨20, 2000, 19/20, 11/10, 1, none, 100⟩ (201/10))).calculatedPrice ≤
      (calculatePricesWithMarkupDiscount
        (withPromo ⟨20, 2000, 19/20, 11/10, 1, none, 100⟩ 20)).calculatedPrice ∧
    (calculatePricesWithMarkupDiscount
        (withPromo ⟨20, 2000, 19/20, 11/10, 1, none, 100⟩ 20)).totalDiscount ≤
      (calculatePricesWithMarkupDiscount
        (withPromo ⟨20, 2000, 19/20, 11/10, 1, none, 100⟩ (201/10))).totalDiscount :=
  promo_discount_weakly_monotone ⟨20, 2000, 19/20, 11/10, 1, none, 100⟩ 20 (201/10)
    (by norm_num) (by norm_num) (by norm_num) (by norm_num) (by norm_num)
    (by norm_num) (by norm_num)
    (by norm_num [totalDiscountPercentUncapped, totalDiscountUncapped, tier0Premium,
      tier0PriceDecimal, tierPrice, nabxPrice, meltValue, discountedFinalPrice,
      discountedHouseMarkup, houseMarkup, markupDiscountRate, withPromo])
    (by norm_num [totalDiscountPercentUncapped, totalDiscountUncapped, tier0Premium,
      tier0PriceDecimal, tierPrice, nabxPrice, meltValue, discountedFinalPrice,
      discountedHouseMarkup, houseMarkup, markupDiscountRate, withPromo])

/-- C9: on every discount-path input with `0 < promoMarkupDiscount ≤ 100`,
`maximumPremiumDiscount ≥ 0` and a non-negative tier0 premium, the returned
`calculatedPrice` is at least the wholesale price rounded half-up, in the
uncapped and in the capped branch alike. -/
theorem calculatedPrice_ge_wholesale (i : Input)
    (hs : i.spotPrice ≠ 0) (hm : i.markupByTier ≠ 0) (hw : i.wholesaleMarkup ≠ 0)
    (ha : i.actualMetalWeight ≠ 0)
    (hp0 : 0 < i.promoMarkupDiscount) (hp100 : i.promoMarkupDiscount ≤ 100)
    (hmax : 0 ≤ i.maximumPremiumDiscount) (hprem : 0 ≤ tier0Premium i) :
    (roundHalfUp (nabxPrice i) : ℚ) ≤
      (calculatePricesWithMarkupDiscount i).calculatedPrice := by
  have h1 : ¬(i.spotPrice = 0 ∨ i.markupByTier = 0) := by tauto
  have hp : i.promoMarkupDiscount ≠ 0 := ne_of_gt hp0
  have h2 : ¬(i.promoMarkupDiscount = 0 ∨ i.wholesaleMarkup = 0 ∨
      i.actualMetalWeight = 0) := by tauto
  have hdfp : nabxPrice i ≤ discountedFinalPrice i :=
    nabxPrice_le_discountedFinalPrice i hp100
  by_cases h3 : totalDiscountPercentUncapped i > i.maximumPremiumDiscount
  · rw [calculate_capped i h1 h2 h3]
    show (roundHalfUp (nabxPrice i) : ℚ) ≤
      (roundHalfUp (tier0PriceDecimal i - cappedDiscountAmount i) : ℚ)
    have hprem' : tier0Premium i ≠ 0 := by
      intro h0
      unfold totalDiscountPercentUncapped at h3
      rw [if_pos h0] at h3
      exact absurd h3 (not_lt.mpr hmax)
    have hpos : 0 < tier0Premium i := lt_of_le_of_ne hprem (Ne.symm hprem')
    have h3' : totalDiscountUncapped i / tier0Premium i * 100 >
        i.maximumPremiumDiscount := by
      unfold totalDiscountPercentUncapped at h3
      rw [if_neg hprem'] at h3
      exact h3
    have hkey : cappedDiscountAmount i < totalDiscountUncapped i := by
      have h3'' : i.maximumPremiumDiscount * tier0Premium i <
          totalDiscountUncapped i * 100 := by
        rw [div_mul_eq_mul_div, gt_iff_lt, lt_div_iff₀ hpos] at h3'
        exact h3'
      unfold cappedDiscountAmount
      rw [div_lt_iff₀ (by norm_num : (0 : ℚ) < 100)]
      nlinarith
    have htdu : totalDiscountUncapped i =
        tier0PriceDecimal i - discountedFinalPrice i := rfl
    have : nabxPrice i ≤ tier0PriceDecimal i - cappedDiscountAmount i := by
      linarith
    exact_mod_cast roundHalfUp_mono this
  · rw [calculate_uncapped i h1 h2 h3]
    show (roundHalfUp (nabxPrice i) : ℚ) ≤
      (roundHalfUp (discountedFinalPrice i) : ℚ)
    exact_mod_cast roundHalfUp_mono hdfp

theorem calculatedPrice_ge_wholesale_witness :
    (roundHalfUp (nabxPrice ⟨100, 2000, 19/20, 2, 1, none, 30⟩) : ℚ) ≤
      (calculatePricesWithMarkupDiscount
        ⟨100, 2000, 19/20, 2, 1, none, 30⟩).calculatedPrice :=
  calculatedPrice_ge_wholesale ⟨100, 2000, 19/20, 2, 1, none, 30⟩
    (by norm_num) (by norm_num) (by norm_num) (by norm_num)
    (by norm_num) (by norm_num) (by norm_num)
    (by norm_num [tier0Premium, tier0PriceDecimal, tierPrice, meltValue])

end Battalion
